import Mathlib

/-!
Verification of the density-matrix core of
`src/Layer/CanonicalOrbitalsLayer.C` (IQmol).

The source computes, for a canonical orbital set with `N` basis
functions, `Na` occupied alpha orbitals and `Nb` occupied beta orbitals:

* `Pa = prod(trans(coeffs), coeffs)` where `coeffs` is the `Na × N`
  matrix copied from the alpha coefficients (and likewise `Pb` for beta);
* the Total (`Pa + Pb`) and Spin (`Pa - Pb`) densities;
* the Mulliken diatomic density, obtained by copying `Pa + Pb` and
  zeroing each atom's diagonal block, and the Mulliken atomic density
  `Pa + Pb - diatomic`;
* it appends the six computed densities to `m_availableDensities`
  and then appends the upstream `densityList()`.

Numeric values (C++ `double`) are embedded as rationals; every identity
proved here uses only additions, subtractions, products and copies that
are exact in the source's arithmetic as well.
-/

namespace IQmolLayer

/-- Kinds of density surfaces appended by `computeDensityVectors`
(`Data::SurfaceType` in the source). -/
inductive SurfaceType where
  | AlphaDensity
  | BetaDensity
  | TotalDensity
  | SpinDensity
  | MullikenDiatomic
  | MullikenAtomic
deriving DecidableEq, Repr

/-- An entry of `m_availableDensities`: a kind tag, the `N × N` density
matrix, and the display label (`Data::Density` in the source). -/
structure Density (N : ℕ) where
  kind : SurfaceType
  matrix : Matrix (Fin N) (Fin N) ℚ
  label : String
deriving DecidableEq

/-- `prod(trans(coeffs), coeffs)` of the source, for a `rows × N`
coefficient matrix: the `N × N` matrix with `(i,j)` entry
`Σ_k C(k,i) * C(k,j)`. -/
def buildP (rows N : ℕ) (C : Matrix (Fin rows) (Fin N) ℚ) :
    Matrix (Fin N) (Fin N) ℚ :=
  Matrix.of fun i j => ∑ k : Fin rows, C k i * C k j

/-- One iteration of the Mulliken loop: zero the square block of `M`
with both indices in `[b, e)` (source lines 117-121). -/
def zeroBlock (N : ℕ) (M : Matrix (Fin N) (Fin N) ℚ) (b e : ℕ) :
    Matrix (Fin N) (Fin N) ℚ :=
  Matrix.of fun i j =>
    if b ≤ i.val ∧ i.val < e ∧ b ≤ j.val ∧ j.val < e then 0 else M i j

/-- The Mulliken diatomic density (source lines 111-122): start from the
total density, append the sentinel `N` to the atom offsets, and for each
atom zero the diagonal block `[offsets[atom], offsets[atom+1])²`. -/
def mullikenDiatomic (N : ℕ) (total : Matrix (Fin N) (Fin N) ℚ)
    (offsets : List ℕ) : Matrix (Fin N) (Fin N) ℚ :=
  let offs := offsets ++ [N]
  (List.range offsets.length).foldl
    (fun M atom => zeroBlock N M (offs.getD atom 0) (offs.getD (atom + 1) 0))
    total

/-- The Mulliken atomic density (source line 127): `Mull = Pa + Pb - Mull`. -/
def mullikenAtomic (N : ℕ) (total : Matrix (Fin N) (Fin N) ℚ)
    (offsets : List ℕ) : Matrix (Fin N) (Fin N) ℚ :=
  total - mullikenDiatomic N total offsets

/-- The list of densities appended by
`CanonicalOrbitals::computeDensityVectors` (source lines 61-131), in the
order the source appends them. -/
def computeDensityVectors (N Na Nb : ℕ)
    (alphaCoefficients : Matrix (Fin Na) (Fin N) ℚ)
    (betaCoefficients : Matrix (Fin Nb) (Fin N) ℚ)
    (offsets : List ℕ) : List (Density N) :=
  let Pa := buildP Na N alphaCoefficients
  let Pb := buildP Nb N betaCoefficients
  let Mull := mullikenDiatomic N (Pa + Pb) offsets
  [ ⟨SurfaceType.AlphaDensity, Pa, "Alpha Density"⟩,
    ⟨SurfaceType.BetaDensity, Pb, "Beta Density"⟩,
    ⟨SurfaceType.TotalDensity, Pa + Pb, "Total Density"⟩,
    ⟨SurfaceType.SpinDensity, Pa - Pb, "Spin Density"⟩,
    ⟨SurfaceType.MullikenDiatomic, Mull, "Mulliken Diatomic Density"⟩,
    ⟨SurfaceType.MullikenAtomic, Pa + Pb - Mull, "Mulliken Atomic Density"⟩ ]

/-- The matrix of the first density of kind `k` in a density list. -/
def densityMatrixOf {N : ℕ} (l : List (Density N)) (k : SurfaceType) :
    Option (Matrix (Fin N) (Fin N) ℚ) :=
  (l.find? fun d => d.kind = k).map Density.matrix

/-- The orbital-set type tags distinguished by the constructor; the
source only tests equality with `Data::Orbitals::Canonical`, so the
remaining tags are collapsed into representative non-canonical values. -/
inductive OrbitalType where
  | Canonical
  | Localized
  | NaturalTransition
deriving DecidableEq, Repr

/-- `m_availableDensities` as produced by the
`CanonicalOrbitals::CanonicalOrbitals` constructor (source lines 34-43):
compute the six density vectors when the orbital type is canonical, then
append the upstream `densityList()`.  Modelled from the spec: the base
`Orbitals` constructor is not part of the source under verification and,
per the specification's state description, contributes no densities, so
the list starts empty. -/
def canonicalOrbitalsCtor (N Na Nb : ℕ) (ty : OrbitalType)
    (alphaCoefficients : Matrix (Fin Na) (Fin N) ℚ)
    (betaCoefficients : Matrix (Fin Nb) (Fin N) ℚ)
    (offsets : List ℕ) (upstream : List (Density N)) : List (Density N) :=
  (if ty = OrbitalType.Canonical then
     computeDensityVectors N Na Nb alphaCoefficients betaCoefficients offsets
   else []) ++ upstream

/-- Read entry `(i, j)` of a coefficient matrix of arbitrary shape,
given as a row list; `none` when the index is outside the stored data
(an unchecked out-of-range `operator()` access in the source). -/
def mread (M : List (List ℚ)) (i j : ℕ) : Option ℚ :=
  (M.get? i).bind fun r => r.get? j

/-- The copy loop of the source (lines 76-80): fill a fresh `Na × N`
matrix `coeffs` with `coefficients(i, j)` for `i < Na`, `j < N`.  The
source performs no shape check; the copy is total exactly when every
read lands inside the stored data. -/
def copyCoeffs (Na N : ℕ) (M : List (List ℚ)) :
    Option (Matrix (Fin Na) (Fin N) ℚ) :=
  if ∀ i : Fin Na, ∀ j : Fin N, (mread M i.val j.val).isSome then
    some (Matrix.of fun i j => (mread M i.val j.val).getD 0)
  else none

/-- Density-matrix construction from a raw coefficient row list: copy
the leading `Na × N` block (source lines 72-80), then form
`prod(trans(coeffs), coeffs)` (source line 82). -/
def buildRagged (Na N : ℕ) (M : List (List ℚ)) :
    Option (Matrix (Fin N) (Fin N) ℚ) :=
  (copyCoeffs Na N M).map (buildP Na N)

/-- Failure taxonomy of the specification for the first-order density
request; the source's only failure path (the orbital-count check at
lines 175-178, a logged early return) is mapped to
`IncompleteOrbitalSet`.  The remaining tags are needed to state which
failures the code does not produce. -/
inductive GridJobError where
  | IncompleteOrbitalSet
  | GridGeometryMismatch
  | JobAlreadyInProgress
deriving DecidableEq, Repr

/-- A sampled orbital grid (`Data::GridData`): the scalar values at the
sample points.  Only its identity and count matter to the claims. -/
structure GridData where
  values : List ℚ
deriving DecidableEq, Repr

/-- A Grid Product job as constructed at source line 183:
`new GridProduct(m_values, orbitalGrids, binSize)`. -/
structure GridProduct where
  values : List ℚ
  orbitalGrids : List GridData
  binSize : ℚ
deriving DecidableEq, Repr

/-- The layer state touched by `computeFirstOrderDensityMatrix`: the
`m_values` buffer and the `m_gridProduct` pointer (`none` = null, no
active job). -/
structure OrbitalsState where
  values : List ℚ
  gridProduct : Option GridProduct
deriving DecidableEq, Repr

/-- `CanonicalOrbitals::computeFirstOrderDensityMatrix` (source lines
168-198) as a state transition: if the number of alpha orbital grids
differs from `Na`, log an error and return with the state unchanged;
otherwise unconditionally construct a new `GridProduct` with bin size
`0.1` and store it in `m_gridProduct`.  The signature offers the caller
no bin-size argument; `0.1` is a local constant of the source. -/
def computeFirstOrderDensityMatrix (Na : ℕ) (orbitalGrids : List GridData)
    (s : OrbitalsState) : Option GridJobError × OrbitalsState :=
  if orbitalGrids.length ≠ Na then
    (some GridJobError.IncompleteOrbitalSet, s)
  else
    (none,
     { s with
       gridProduct :=
         some { values := s.values, orbitalGrids := orbitalGrids,
                binSize := 1 / 10 } })

/-! ## Claims -/

/-- Claim C1: for every coefficient matrix `C` with the declared
occupied-orbital row count and `N` columns, the built density matrix is
`Cᵗ·C`; in particular for `N = 3` and occupied rows
`[[1,0,0],[0,1,0]]` the alpha density matrix is `diag(1,1,0)`. -/
theorem buildP_eq_transpose_mul (rows N : ℕ)
    (C : Matrix (Fin rows) (Fin N) ℚ) :
    buildP rows N C = C.transpose * C ∧
    buildP 2 3 (Matrix.of ![![1, 0, 0], ![0, 1, 0]]) =
      Matrix.diagonal ![1, 1, 0] := by
  constructor
  · ext i j
    simp [buildP, Matrix.mul_apply, Matrix.transpose_apply]
  · ext i j
    fin_cases i <;> fin_cases j <;>
      simp [buildP, Fin.sum_univ_two, Matrix.diagonal]

/-- Claim C4: the built density matrix is symmetric:
`P(i,j) = P(j,i)` for all `i`, `j`. -/
theorem buildP_symmetric (rows N : ℕ) (C : Matrix (Fin rows) (Fin N) ℚ)
    (i j : Fin N) :
    buildP rows N C i j = buildP rows N C j i := by
  simp only [buildP, Matrix.of_apply]
  exact Finset.sum_congr rfl fun k _ => mul_comm _ _

/-- Claim C2: in the density list produced by `computeDensityVectors`,
the Total density matrix is the elementwise sum of the Alpha and Beta
density matrices, and the Spin density matrix their elementwise
difference. -/
theorem total_spin_density_relation (N Na Nb : ℕ)
    (aC : Matrix (Fin Na) (Fin N) ℚ) (bC : Matrix (Fin Nb) (Fin N) ℚ)
    (offsets : List ℕ) :
    densityMatrixOf (computeDensityVectors N Na Nb aC bC offsets)
        SurfaceType.TotalDensity =
      Option.map₂ (· + ·)
        (densityMatrixOf (computeDensityVectors N Na Nb aC bC offsets)
          SurfaceType.AlphaDensity)
        (densityMatrixOf (computeDensityVectors N Na Nb aC bC offsets)
          SurfaceType.BetaDensity) ∧
    densityMatrixOf (computeDensityVectors N Na Nb aC bC offsets)
        SurfaceType.SpinDensity =
      Option.map₂ (· - ·)
        (densityMatrixOf (computeDensityVectors N Na Nb aC bC offsets)
          SurfaceType.AlphaDensity)
        (densityMatrixOf (computeDensityVectors N Na Nb aC bC offsets)
          SurfaceType.BetaDensity) := by
  constructor <;> rfl

/-- Helper: with a single atom whose range is the whole basis
(`offsets = [0]`, sentinel `N`), the Mulliken loop zeroes everything. -/
theorem mullikenDiatomic_single_atom (N : ℕ)
    (total : Matrix (Fin N) (Fin N) ℚ) :
    mullikenDiatomic N total [0] = 0 := by
  have h : mullikenDiatomic N total [0] = zeroBlock N total 0 N := rfl
  rw [h]
  ext i j
  simp [zeroBlock, i.isLt, j.isLt]

/-- Claim C3: for every total density matrix and every atom-offset
sequence, the Mulliken diatomic and atomic matrices sum elementwise to
the total, exactly; and in the degenerate single-atom case spanning all
`N` basis functions the diatomic matrix is zero and the atomic matrix
equals the total. -/
theorem mulliken_partition_sum (N : ℕ) (total : Matrix (Fin N) (Fin N) ℚ)
    (offsets : List ℕ) :
    mullikenDiatomic N total offsets + mullikenAtomic N total offsets
        = total ∧
    mullikenDiatomic N total [0] = 0 ∧
    mullikenAtomic N total [0] = total := by
  refine ⟨?_, mullikenDiatomic_single_atom N total, ?_⟩
  · unfold mullikenAtomic
    abel
  · unfold mullikenAtomic
    rw [mullikenDiatomic_single_atom N total]
    simp

/-- Concrete alpha coefficients with zero occupied rows. -/
def emptyAlphaCoeffs : Matrix (Fin 0) (Fin 1) ℚ :=
  Matrix.of fun i _ => i.elim0

/-- Concrete beta coefficients with zero occupied rows. -/
def emptyBetaCoeffs : Matrix (Fin 0) (Fin 1) ℚ :=
  Matrix.of fun i _ => i.elim0

/-- A concrete upstream-supplied density list with one entry. -/
def upstreamExample : List (Density 1) :=
  [⟨SurfaceType.TotalDensity, 0, "Upstream Density"⟩]

/-- Counterexample to claim C5 as stated: with an empty initial list,
one upstream density and a canonical orbital set, the constructor's
density list is not the upstream densities followed by the six computed
ones — the computed densities come first. -/
theorem ctor_upstream_first_cex :
    canonicalOrbitalsCtor 1 0 0 OrbitalType.Canonical emptyAlphaCoeffs
        emptyBetaCoeffs [] upstreamExample ≠
      upstreamExample ++
        computeDensityVectors 1 0 0 emptyAlphaCoeffs emptyBetaCoeffs [] := by
  decide

/-- Claim C5 as amended: after construction with a canonical orbital
set, the available-density list is Alpha, Beta, Total, Spin,
MullikenDiatomic, MullikenAtomic in that fixed order, followed by the
upstream-supplied densities appended last. -/
theorem ctor_density_order (N Na Nb : ℕ) (ty : OrbitalType)
    (aC : Matrix (Fin Na) (Fin N) ℚ) (bC : Matrix (Fin Nb) (Fin N) ℚ)
    (offsets : List ℕ) (upstream : List (Density N))
    (h : ty = OrbitalType.Canonical) :
    canonicalOrbitalsCtor N Na Nb ty aC bC offsets upstream =
      computeDensityVectors N Na Nb aC bC offsets ++ upstream := by
  subst h
  simp [canonicalOrbitalsCtor]

/-- Witness for `ctor_density_order` at a concrete input. -/
theorem ctor_density_order_witness :
    canonicalOrbitalsCtor 1 0 0 OrbitalType.Canonical emptyAlphaCoeffs
        emptyBetaCoeffs [] upstreamExample =
      computeDensityVectors 1 0 0 emptyAlphaCoeffs emptyBetaCoeffs [] ++
        upstreamExample :=
  ctor_density_order 1 0 0 OrbitalType.Canonical emptyAlphaCoeffs
    emptyBetaCoeffs [] upstreamExample rfl

/-- Claim C9: when the orbital type is not canonical, no density
matrices are computed and the available-density list is exactly the
upstream-supplied list. -/
theorem ctor_noncanonical (N Na Nb : ℕ) (ty : OrbitalType)
    (aC : Matrix (Fin Na) (Fin N) ℚ) (bC : Matrix (Fin Nb) (Fin N) ℚ)
    (offsets : List ℕ) (upstream : List (Density N))
    (h : ty ≠ OrbitalType.Canonical) :
    canonicalOrbitalsCtor N Na Nb ty aC bC offsets upstream = upstream := by
  simp [canonicalOrbitalsCtor, h]

/-- Witness for `ctor_noncanonical` at a concrete input. -/
theorem ctor_noncanonical_witness :
    canonicalOrbitalsCtor 1 0 0 OrbitalType.Localized emptyAlphaCoeffs
      emptyBetaCoeffs [] upstreamExample = upstreamExample :=
  ctor_noncanonical 1 0 0 OrbitalType.Localized emptyAlphaCoeffs
    emptyBetaCoeffs [] upstreamExample (by decide)

/-- Counterexample to claim C6 as stated: a coefficient row list of
shape 2 × 3, declared as 1 occupied row and 2 basis functions, does not
make the build fail — a density matrix is produced. -/
theorem build_shape_mismatch_cex :
    (buildRagged 1 2 [[1, 2, 3], [4, 5, 6]]).isSome = true := by
  decide

/-- Claim C6 as amended: the build performs no shape validation and has
no DimensionMismatch failure; whenever every entry of the leading
`Na × N` block exists in the row list — whatever the list's actual
shape — it returns the density matrix of that block. -/
theorem buildRagged_no_shape_check (Na N : ℕ) (M : List (List ℚ))
    (h : ∀ i : Fin Na, ∀ j : Fin N, (mread M i.val j.val).isSome) :
    buildRagged Na N M =
      some (buildP Na N
        (Matrix.of fun i j => (mread M i.val j.val).getD 0)) := by
  unfold buildRagged copyCoeffs
  rw [if_pos h]
  rfl

/-- Witness for `buildRagged_no_shape_check` at a concrete input whose
shape (2 × 2) differs from the declared one (1 × 2). -/
theorem buildRagged_no_shape_check_witness :
    buildRagged 1 2 [[7, 8], [9, 10]] =
      some (buildP 1 2
        (Matrix.of fun i j =>
          (mread [[7, 8], [9, 10]] i.val j.val).getD 0)) :=
  buildRagged_no_shape_check 1 2 [[7, 8], [9, 10]] (by decide)

/-- Claim C7: when the number of supplied alpha orbital grids differs
from the occupied alpha-orbital count, the first-order density request
fails with IncompleteOrbitalSet and the state — in particular the
active-job field — is unchanged: no Grid Product job is created. -/
theorem firstOrder_incomplete_set (Na : ℕ) (orbitalGrids : List GridData)
    (s : OrbitalsState) (h : orbitalGrids.length ≠ Na) :
    computeFirstOrderDensityMatrix Na orbitalGrids s =
      (some GridJobError.IncompleteOrbitalSet, s) := by
  simp [computeFirstOrderDensityMatrix, h]

/-- Witness for `firstOrder_incomplete_set` at a concrete input. -/
theorem firstOrder_incomplete_set_witness :
    computeFirstOrderDensityMatrix 2 [] ⟨[], none⟩ =
      (some GridJobError.IncompleteOrbitalSet, (⟨[], none⟩ : OrbitalsState)) :=
  firstOrder_incomplete_set 2 [] ⟨[], none⟩ (by decide)

/-- A concrete state with a Grid Product job in flight. -/
def runningStateExample : OrbitalsState :=
  { values := [], gridProduct := some ⟨[], [⟨[1]⟩], 1 / 10⟩ }

/-- Counterexample to claim C8 as stated: a second request issued while
a job is in flight does not yield JobAlreadyInProgress, and it does not
leave the stored in-flight job untouched — the job handle is
replaced. -/
theorem second_request_cex :
    (computeFirstOrderDensityMatrix 1 [⟨[0]⟩] runningStateExample).1 ≠
        some GridJobError.JobAlreadyInProgress ∧
      (computeFirstOrderDensityMatrix 1 [⟨[0]⟩]
            runningStateExample).2.gridProduct ≠
        runningStateExample.gridProduct := by
  constructor <;> decide

/-- Claim C8 as amended: a second request while a job is in flight is
not rejected — there is no in-progress check at all: whenever the
orbital-grid count matches, the request succeeds and unconditionally
overwrites the stored job handle with a newly constructed job,
regardless of any job already running. -/
theorem second_request_replaces (Na : ℕ) (orbitalGrids : List GridData)
    (s : OrbitalsState) (h : orbitalGrids.length = Na) :
    computeFirstOrderDensityMatrix Na orbitalGrids s =
      (none,
       { s with
         gridProduct :=
           some ⟨s.values, orbitalGrids, 1 / 10⟩ }) := by
  simp [computeFirstOrderDensityMatrix, h]

/-- Witness for `second_request_replaces` at a concrete state with a
job already in flight. -/
theorem second_request_replaces_witness :
    computeFirstOrderDensityMatrix 1 [⟨[0]⟩] runningStateExample =
      (none,
       { runningStateExample with
         gridProduct := some ⟨[], [⟨[0]⟩], 1 / 10⟩ }) :=
  second_request_replaces 1 [⟨[0]⟩] runningStateExample rfl

/-- Claim C10: every Grid Product job started by the first-order
density request is constructed with bin size exactly 0.1 (the
operation's signature offers the caller no bin-size choice). -/
theorem gridProduct_binSize_fixed (Na : ℕ) (orbitalGrids : List GridData)
    (s : OrbitalsState) (h : orbitalGrids.length = Na) :
    ((computeFirstOrderDensityMatrix Na orbitalGrids s).2.gridProduct).map
        GridProduct.binSize = some (1 / 10) := by
  simp [computeFirstOrderDensityMatrix, h]

/-- Witness for `gridProduct_binSize_fixed` at a concrete input. -/
theorem gridProduct_binSize_fixed_witness :
    ((computeFirstOrderDensityMatrix 0 [] ⟨[], none⟩).2.gridProduct).map
        GridProduct.binSize = some (1 / 10) :=
  gridProduct_binSize_fixed 0 [] ⟨[], none⟩ rfl

end IQmolLayer
